import Mathlib

/-!
# Freeseek client library — verification of the spec against the code

Shallow embedding of the `freeseek` Python client library
(`src/freeseek/*.py`).  Each definition is translated from the source file
and symbol named in its doc comment.  Time is modelled as a natural number
of seconds (the code uses `time.time()` floats); Python exceptions are
modelled by explicit error sums; Python truthiness checks are modelled
explicitly where the source relies on them.
-/

deriving instance DecidableEq for Except

namespace Freeseek

/-!
## Circuit breaker — `circuit_breaker.py` / `api.py` class `CircuitBreaker`

State: `"CLOSED" | "OPEN" | "HALF_OPEN"`, a failure counter and an optional
last-failure timestamp.  `call` is embedded as a pure step function: the
wrapped operation's outcome is passed in as an `Except` value, and the
function returns the call result, the successor breaker state, and whether
the wrapped operation was invoked.
-/

inductive CBState where
  | closed
  | opened
  | halfOpen
deriving DecidableEq, Repr

structure CircuitBreaker where
  failureThreshold : Nat
  recoveryTimeout : Nat
  failureCount : Nat
  lastFailureTime : Option Nat
  state : CBState
deriving DecidableEq, Repr

/-- `CircuitBreaker.__init__` (fresh breaker). -/
def CircuitBreaker.init (threshold timeout : Nat) : CircuitBreaker :=
  { failureThreshold := threshold, recoveryTimeout := timeout,
    failureCount := 0, lastFailureTime := none, state := .closed }

/-- `CircuitBreaker._open`: record the opening time as the last failure time. -/
def CircuitBreaker.openBreaker (cb : CircuitBreaker) (now : Nat) : CircuitBreaker :=
  { cb with state := .opened, lastFailureTime := some now }

/-- `CircuitBreaker._close`: reset the counter and the failure time. -/
def CircuitBreaker.closeBreaker (cb : CircuitBreaker) : CircuitBreaker :=
  { cb with state := .closed, failureCount := 0, lastFailureTime := none }

/-- Result of `CircuitBreaker.call`: either the wrapped operation's result,
the `APIError("Circuit breaker is open. Request aborted.")` rejection, or the
re-raised exception of the wrapped operation. -/
inductive CallErr (E : Type) where
  | circuitOpenAbort
  | opFailed (e : E)
deriving DecidableEq, Repr

/-- Python truthiness of `self.last_failure_time` (`None` and `0` are falsy). -/
def CircuitBreaker.lastFailureTruthy (cb : CircuitBreaker) : Bool :=
  match cb.lastFailureTime with
  | none => false
  | some t => decide (t ≠ 0)

/-- `CircuitBreaker.call(func)`.  `op` is the outcome the wrapped operation
would produce if invoked; the returned `Bool` records whether it was invoked.
Mirrors the source: an OPEN breaker first checks
`last_failure_time and (now - last_failure_time) > recovery_timeout`,
transitioning to HALF_OPEN or raising; any operation exception increments
`failure_count` and opens the breaker once the threshold is reached; a
success while HALF_OPEN closes the breaker. -/
def CircuitBreaker.call {E A : Type} (cb : CircuitBreaker) (now : Nat)
    (op : Except E A) : Except (CallErr E) A × CircuitBreaker × Bool :=
  let gate : Option CircuitBreaker :=
    match cb.state with
    | .opened =>
        if cb.lastFailureTruthy ∧ now - (cb.lastFailureTime.getD 0) > cb.recoveryTimeout then
          some { cb with state := .halfOpen }
        else
          none
    | _ => some cb
  match gate with
  | none => (.error .circuitOpenAbort, cb, false)
  | some cb1 =>
    match op with
    | .error e =>
        let cb2 := { cb1 with failureCount := cb1.failureCount + 1 }
        let cb3 := if cb2.failureCount ≥ cb2.failureThreshold then cb2.openBreaker now else cb2
        (.error (.opFailed e), cb3, true)
    | .ok a =>
        let cb2 := if cb1.state = .halfOpen then cb1.closeBreaker else cb1
        (.ok a, cb2, true)

/-- A sequence of consecutive failing wrapped operations, one per timestamp. -/
def CircuitBreaker.runFailures (cb : CircuitBreaker) : List Nat → CircuitBreaker
  | [] => cb
  | t :: ts => CircuitBreaker.runFailures (cb.call (E := Unit) (A := Unit) t (.error ())).2.1 ts

lemma CircuitBreaker.call_closed_failure (cb : CircuitBreaker) (now : Nat)
    (hst : cb.state = .closed) :
    (cb.call (E := Unit) (A := Unit) now (.error ())).2.1 =
      (if cb.failureCount + 1 ≥ cb.failureThreshold then
        { cb with failureCount := cb.failureCount + 1, state := .opened,
                  lastFailureTime := some now }
      else
        { cb with failureCount := cb.failureCount + 1 }) := by
  simp only [CircuitBreaker.call, hst, CircuitBreaker.openBreaker]

lemma CircuitBreaker.runFailures_opens (ts : List Nat) :
    ∀ (cb : CircuitBreaker), cb.state = .closed →
      cb.failureCount + ts.length = cb.failureThreshold →
      ∀ (h : ts ≠ []),
      cb.runFailures ts =
        { cb with failureCount := cb.failureThreshold, state := .opened,
                  lastFailureTime := some (ts.getLast h) } := by
  induction ts with
  | nil => intro cb _ _ h; exact absurd rfl h
  | cons t rest ih =>
    intro cb hst hcount _
    cases rest with
    | nil =>
        have hthr : cb.failureCount + 1 ≥ cb.failureThreshold := by
          simp at hcount; omega
        simp only [CircuitBreaker.runFailures, CircuitBreaker.call_closed_failure cb t hst,
          if_pos hthr, List.getLast_singleton]
        have : cb.failureCount + 1 = cb.failureThreshold := by simp at hcount; omega
        simp [this]
    | cons t2 rest2 =>
        have hlen : cb.failureCount + (t2 :: rest2).length + 1 = cb.failureThreshold := by
          simpa [List.length_cons] using hcount
        have hlt : ¬ cb.failureCount + 1 ≥ cb.failureThreshold := by
          simp only [List.length_cons] at hlen; omega
        have hrec := ih { cb with failureCount := cb.failureCount + 1 } hst
          (by simp only [List.length_cons] at hlen ⊢; omega) (by simp)
        rw [CircuitBreaker.runFailures, CircuitBreaker.call_closed_failure cb t hst,
          if_neg hlt, hrec]
        simp [List.getLast_cons]

/-- C2: `CircuitBreaker.call` implements the three-state machine: starting
from CLOSED, after `T` consecutive wrapped-operation failures
(`T = failure_threshold`) the state is OPEN with the failure time of the last
failure recorded; while OPEN and less than `recovery_timeout` has elapsed
since the last failure, `call` raises the circuit-open error without invoking
the wrapped operation and leaves the breaker unchanged; once the recovery
timeout has elapsed (strictly more than `recovery_timeout` seconds since the
last failure, per the source's `>` comparison) the next call invokes the
operation in HALF_OPEN, and on success transitions to CLOSED with
`failure_count` reset to `0`, while on failure it re-opens. -/
theorem circuitBreaker_three_state_machine
    (T R : Nat) (hT : 1 ≤ T) (ts : List Nat) (hlen : ts.length = T) (h : ts ≠ [])
    (u v : Nat) (hu : u - ts.getLast h < R) (hv : v - ts.getLast h > R)
    (ht : ts.getLast h ≠ 0) :
    (((CircuitBreaker.init T R).runFailures ts).state = .opened
        ∧ ((CircuitBreaker.init T R).runFailures ts).failureCount = T
        ∧ ((CircuitBreaker.init T R).runFailures ts).lastFailureTime = some (ts.getLast h))
    ∧ (∀ (op : Except Unit Unit),
        ((CircuitBreaker.init T R).runFailures ts).call u op =
          (.error .circuitOpenAbort, (CircuitBreaker.init T R).runFailures ts, false))
    ∧ ((CircuitBreaker.init T R).runFailures ts).call v (.ok () : Except Unit Unit) =
        (.ok (), { failureThreshold := T, recoveryTimeout := R, failureCount := 0,
                   lastFailureTime := none, state := .closed }, true)
    ∧ ((CircuitBreaker.init T R).runFailures ts).call v (.error () : Except Unit Unit) =
        (.error (.opFailed ()), { failureThreshold := T, recoveryTimeout := R,
                                  failureCount := T + 1, lastFailureTime := some v,
                                  state := .opened }, true) := by
  have hcb := CircuitBreaker.runFailures_opens ts (CircuitBreaker.init T R) rfl
    (by simpa [CircuitBreaker.init] using hlen) h
  rw [hcb]
  simp only [CircuitBreaker.init]
  refine ⟨by simp, ?_, ?_, ?_⟩
  · intro op
    have hnot : ¬ (u - ts.getLast h > R) := by omega
    simp [CircuitBreaker.call, CircuitBreaker.lastFailureTruthy, hnot]
  · simp [CircuitBreaker.call, CircuitBreaker.lastFailureTruthy, ht, hv,
      CircuitBreaker.closeBreaker]
  · simp [CircuitBreaker.call, CircuitBreaker.lastFailureTruthy, ht, hv,
      CircuitBreaker.openBreaker]

/-- Witness for C2 at threshold 2, recovery timeout 30, failures at times
10 and 20, a rejected call at time 40 and a half-open trial at time 60. -/
theorem circuitBreaker_three_state_machine_witness :
    (((CircuitBreaker.init 2 30).runFailures [10, 20]).state = .opened
        ∧ ((CircuitBreaker.init 2 30).runFailures [10, 20]).failureCount = 2
        ∧ ((CircuitBreaker.init 2 30).runFailures [10, 20]).lastFailureTime =
            some ([10, 20].getLast (by decide)))
    ∧ (∀ (op : Except Unit Unit),
        ((CircuitBreaker.init 2 30).runFailures [10, 20]).call 40 op =
          (.error .circuitOpenAbort, (CircuitBreaker.init 2 30).runFailures [10, 20], false))
    ∧ ((CircuitBreaker.init 2 30).runFailures [10, 20]).call 60 (.ok () : Except Unit Unit) =
        (.ok (), { failureThreshold := 2, recoveryTimeout := 30, failureCount := 0,
                   lastFailureTime := none, state := .closed }, true)
    ∧ ((CircuitBreaker.init 2 30).runFailures [10, 20]).call 60 (.error () : Except Unit Unit) =
        (.error (.opFailed ()), { failureThreshold := 2, recoveryTimeout := 30,
                                  failureCount := 3, lastFailureTime := some 60,
                                  state := .opened }, true) :=
  circuitBreaker_three_state_machine 2 30 (by decide) [10, 20] (by decide) (by decide)
    40 60 (by decide) (by decide) (by decide)

/-!
## Request executor — `api.py` `FreeseekAPI._request`

`_request` is decorated with
`@retry(stop=stop_after_attempt(3), wait=wait_exponential(...),
        retry=retry_if_exception_type(requests.RequestException), reraise=True)`.
Its body increments the `requests` metric, runs `do_request` (the transport
call) through the circuit breaker, increments `successes` on success, and on
*any* exception increments `failures` and raises
`APIError(f"Request failed: {str(e)}") from e`.

The transport collaborator is embedded as a function from the attempt index
to the outcome `do_request` would produce on that attempt; backoff sleeps are
irrelevant to the results and are not modelled.
-/

/-- Python exceptions relevant to `_request`:
`requests.RequestException` (transient transport failures, including
`HTTPError` with an optional status code), `pydantic.ValidationError`,
freeseek's `APIError` either raised bare (message only, as the circuit
breaker does) or raised `from` a causing exception, and anything else. -/
inductive PyExc where
  | requestExc (status : Option Nat)
  | validationExc
  | apiErrorMsg
  | apiErrorFrom (cause : PyExc)
  | otherExc
deriving DecidableEq, Repr

/-- `tenacity.retry_if_exception_type(requests.RequestException)`. -/
def isRequestException : PyExc → Bool
  | .requestExc _ => true
  | _ => false

/-- The client's `self.metrics = {"requests": 0, "successes": 0, "failures": 0}`. -/
structure Metrics where
  requests : Nat
  successes : Nat
  failures : Nat
deriving DecidableEq, Repr

def Metrics.init : Metrics := { requests := 0, successes := 0, failures := 0 }

/-- One execution of the `_request` body (`api.py` lines 140-181): metrics
increment, circuit-breaker-gated transport call, and the catch-all that wraps
every exception in `APIError(...) from e`.  The returned `Bool` is whether
the transport operation ran. -/
def requestOnce {A : Type} (cb : CircuitBreaker) (m : Metrics) (now : Nat)
    (transport : Except PyExc A) : Except PyExc A × CircuitBreaker × Metrics × Bool :=
  let m1 := { m with requests := m.requests + 1 }
  match cb.call now transport with
  | (.ok a, cb1, invoked) =>
      (.ok a, cb1, { m1 with successes := m1.successes + 1 }, invoked)
  | (.error (.opFailed e), cb1, invoked) =>
      (.error (.apiErrorFrom e), cb1, { m1 with failures := m1.failures + 1 }, invoked)
  | (.error .circuitOpenAbort, cb1, invoked) =>
      -- the breaker's own `APIError("Circuit breaker is open...")` is the cause
      (.error (.apiErrorFrom .apiErrorMsg), cb1,
        { m1 with failures := m1.failures + 1 }, invoked)

/-- The tenacity loop around `_request`: attempt indices count from 0,
`fuel` is the number of retries still allowed after the current attempt
(`stop_after_attempt(3)` gives initial fuel 2), and an exception is retried
only when `isRequestException` holds for it; otherwise (and on exhaustion,
because of `reraise=True`) it is re-raised.  The final component counts
transport invocations. -/
def runRetry {A : Type} (transport : Nat → Except PyExc A) (times : Nat → Nat) :
    Nat → Nat → CircuitBreaker → Metrics → Nat →
    Except PyExc A × CircuitBreaker × Metrics × Nat
  | i, fuel, cb, m, inv =>
    match requestOnce cb m (times i) (transport i) with
    | (r, cb1, m1, invoked) =>
      let inv1 := if invoked then inv + 1 else inv
      match r with
      | .ok a => (.ok a, cb1, m1, inv1)
      | .error e =>
        match fuel with
        | 0 => (.error e, cb1, m1, inv1)
        | fuel' + 1 =>
            if isRequestException e then runRetry transport times (i + 1) fuel' cb1 m1 inv1
            else (.error e, cb1, m1, inv1)

/-- The decorated `FreeseekAPI._request` with its configured
`stop_after_attempt(3)`. -/
def request {A : Type} (transport : Nat → Except PyExc A) (times : Nat → Nat)
    (cb : CircuitBreaker) (m : Metrics) :
    Except PyExc A × CircuitBreaker × Metrics × Nat :=
  runRetry transport times 0 2 cb m 0

/-- C1 (code bug): the spec says a transport call that fails with a
transient `requests.RequestException` exactly `k < 3` times and then succeeds
makes `_request` return the success result after `k+1` transport invocations.
The code violates this for `k = 1`: `_request`'s body wraps every exception
in `APIError`, which `retry_if_exception_type(requests.RequestException)`
does not match, so the retry never fires.  With a transport that raises
`RequestException` on attempt 0 and would return `42` on attempt 1, the
decorated `_request` raises `APIError` wrapping the `RequestException` after
exactly one transport invocation, instead of returning `42` after two. -/
theorem request_never_retries_transient_failure :
    request (fun i => if i = 0 then .error (.requestExc none) else .ok (42 : Nat))
        (fun _ => 100) (CircuitBreaker.init 3 30) Metrics.init =
      (.error (.apiErrorFrom (.requestExc none)),
        { failureThreshold := 3, recoveryTimeout := 30, failureCount := 1,
          lastFailureTime := none, state := .closed },
        { requests := 1, successes := 0, failures := 1 }, 1)
    ∧ (request (fun i => if i = 0 then .error (.requestExc none) else .ok (42 : Nat))
        (fun _ => 100) (CircuitBreaker.init 3 30) Metrics.init).1 ≠ .ok 42
    ∧ (request (fun i => if i = 0 then .error (.requestExc none) else .ok (42 : Nat))
        (fun _ => 100) (CircuitBreaker.init 3 30) Metrics.init).2.2.2 ≠ 2 := by
  refine ⟨?_, ?_, ?_⟩ <;> decide

/-!
## Middleware pipelines

Two variants exist in the source: the clients' own loops
(`api.py` `_apply_pre_request_middlewares` / `_apply_post_response_middlewares`
lines 118-132, `sync_client.py` lines 120-136, `async_client.py` lines 58-86 —
the async variant `await`s coroutine middlewares but computes the same value)
and `MiddlewareHandler.process_pre_request` / `process_post_response`
(`middleware_handler.py` lines 28-54), which additionally catches middleware
exceptions and re-raises them wrapped.
-/

/-- The client middleware loop: run each registered middleware in
registration order on the accumulated value; a non-`None` return value
replaces the accumulated value, a `None` return leaves it unchanged. -/
def applyMiddlewares {α : Type} : List (α → Option α) → α → α
  | [], c => c
  | mw :: rest, c =>
      match mw c with
      | some v => applyMiddlewares rest v
      | none => applyMiddlewares rest c

/-- C7: middlewares run strictly in registration order on the accumulated
value (processing a concatenation of registration lists processes the first
list fully, then the second on its result); a middleware returning a
replacement swaps that value in for the rest of the pipeline, one returning
`None` preserves the prior value; pre-request middlewares `[A, B]` that each
append a tag yield the tag list `[A, B]` in registration order (the post-
response loop is the same function shape on the response value). -/
theorem middleware_pipeline_order_and_replacement {α : Type}
    (ms₁ ms₂ : List (α → Option α)) (mw : α → Option α) (c v : α) :
    (applyMiddlewares (ms₁ ++ ms₂) c = applyMiddlewares ms₂ (applyMiddlewares ms₁ c))
    ∧ (mw c = some v → applyMiddlewares (mw :: ms₂) c = applyMiddlewares ms₂ v)
    ∧ (mw c = none → applyMiddlewares (mw :: ms₂) c = applyMiddlewares ms₂ c)
    ∧ (∀ (a b : String) (tags : List String),
        applyMiddlewares [fun l => some (l ++ [a]), fun l => some (l ++ [b])] tags
          = tags ++ [a, b]) := by
  refine ⟨?_, ?_, ?_, ?_⟩
  · induction ms₁ generalizing c with
    | nil => rfl
    | cons mw' rest ih =>
        simp only [List.cons_append, applyMiddlewares]
        cases mw' c <;> simp [ih]
  · intro h; simp [applyMiddlewares, h]
  · intro h; simp [applyMiddlewares, h]
  · intro a b tags; simp [applyMiddlewares]

/-- Witness for C7: a replacing middleware, a `None` middleware and the
two tag-appending middlewares at concrete inputs. -/
theorem middleware_pipeline_order_and_replacement_witness :
    (applyMiddlewares ([fun n => some (n + 1)] ++ [fun _ => (none : Option Nat)]) 3
      = applyMiddlewares [fun _ => none] (applyMiddlewares [fun n => some (n + 1)] 3))
    ∧ (applyMiddlewares [fun n => some (n * 2), fun _ => (none : Option Nat)] 3
      = applyMiddlewares [fun _ => (none : Option Nat)] 6)
    ∧ (applyMiddlewares [fun n => (none : Option Nat), fun n => some (n + 5)] 3
      = applyMiddlewares [fun n => some (n + 5)] 3)
    ∧ applyMiddlewares
        [fun l => some (l ++ ["A"]), fun l => some (l ++ ["B"])] ([] : List String)
      = ["A", "B"] :=
  ⟨(middleware_pipeline_order_and_replacement
      [fun n => some (n + 1)] [fun _ => none] (fun _ => none) 3 0).1,
   (middleware_pipeline_order_and_replacement
      [] [fun _ => (none : Option Nat)] (fun n => some (n * 2)) 3 6).2.1 rfl,
   (middleware_pipeline_order_and_replacement
      [] [fun n => some (n + 5)] (fun _ => (none : Option Nat)) 3 0).2.2.1 rfl,
   (middleware_pipeline_order_and_replacement
      ([] : List (List String → Option (List String))) [] (fun _ => none) [] []).2.2.2
     "A" "B" []⟩

/-- Abort signal of `MiddlewareHandler`: the source raises
`APIError(f"...middleware failed: {str(e)}") from e`; the `MiddlewareError`
class defined in `exceptions.py` is never raised anywhere in the source. -/
inductive PipeErr where
  | apiErrorWrap (cause : String)
  | middlewareErrorWrap (cause : String)
deriving DecidableEq, Repr

/-- `MiddlewareHandler.process_pre_request` (`middleware_handler.py` lines
28-40).  A middleware returns a replacement (`.ok (some c)`), `None`
(`.ok none`), or raises (`.error msg`); a raising middleware stops the loop
and the pipeline aborts with `APIError("Pre-request middleware failed: ...")
from e`. -/
def processPreRequest {α : Type} : List (α → Except String (Option α)) → α → Except PipeErr α
  | [], ctx => .ok ctx
  | mw :: rest, ctx =>
      match mw ctx with
      | .error e => .error (.apiErrorWrap e)
      | .ok none => processPreRequest rest ctx
      | .ok (some c) => processPreRequest rest c

/-- `MiddlewareHandler.process_post_response` (`middleware_handler.py` lines
42-54): same loop as `process_pre_request` over the response value. -/
def processPostResponse {α : Type} : List (α → Except String (Option α)) → α → Except PipeErr α
  | [], resp => .ok resp
  | mw :: rest, resp =>
      match mw resp with
      | .error e => .error (.apiErrorWrap e)
      | .ok none => processPostResponse rest resp
      | .ok (some r) => processPostResponse rest r

lemma processPreRequest_append {α : Type} (ms₁ ms₂ : List (α → Except String (Option α)))
    (ctx : α) :
    processPreRequest (ms₁ ++ ms₂) ctx =
      match processPreRequest ms₁ ctx with
      | .ok c => processPreRequest ms₂ c
      | .error err => .error err := by
  induction ms₁ generalizing ctx with
  | nil => rfl
  | cons mw rest ih =>
      simp only [List.cons_append, processPreRequest]
      cases mw ctx with
      | error e => rfl
      | ok o => cases o <;> simp [ih]

lemma processPostResponse_append {α : Type} (ms₁ ms₂ : List (α → Except String (Option α)))
    (resp : α) :
    processPostResponse (ms₁ ++ ms₂) resp =
      match processPostResponse ms₁ resp with
      | .ok r => processPostResponse ms₂ r
      | .error err => .error err := by
  induction ms₁ generalizing resp with
  | nil => rfl
  | cons mw rest ih =>
      simp only [List.cons_append, processPostResponse]
      cases mw resp with
      | error e => rfl
      | ok o => cases o <;> simp [ih]

/-- C4 counterexample: a failing middleware aborts the pipeline, but the
abort error is the source's `APIError` wrapper, not a `MiddlewareError`
wrapping the cause as the claim states. -/
theorem middleware_failure_not_middlewareError :
    processPreRequest [fun _ => .error "boom"] (0 : Nat) = .error (.apiErrorWrap "boom")
    ∧ processPreRequest [fun _ => .error "boom"] (0 : Nat)
        ≠ .error (.middlewareErrorWrap "boom") := by
  refine ⟨rfl, ?_⟩ ; decide

/-- C4 (amended): if any registered middleware raises while the pipeline
processes a request (resp. response), the whole pipeline is aborted with an
`APIError` wrapping the original cause, and no middleware registered after
the failing one is applied — the result does not depend on the remaining
middlewares. -/
theorem middleware_failure_aborts_pipeline {α : Type}
    (ms₁ ms₂ : List (α → Except String (Option α))) (mw : α → Except String (Option α))
    (ctx c : α) (e : String) :
    (processPreRequest ms₁ ctx = .ok c → mw c = .error e →
      processPreRequest (ms₁ ++ mw :: ms₂) ctx = .error (.apiErrorWrap e))
    ∧ (processPostResponse ms₁ ctx = .ok c → mw c = .error e →
      processPostResponse (ms₁ ++ mw :: ms₂) ctx = .error (.apiErrorWrap e)) := by
  constructor
  · intro h1 h2
    rw [processPreRequest_append, h1]
    simp [processPreRequest, h2]
  · intro h1 h2
    rw [processPostResponse_append, h1]
    simp [processPostResponse, h2]

/-- Witness for amended C4: one succeeding middleware, then a failing one,
then one more that is never reached. -/
theorem middleware_failure_aborts_pipeline_witness :
    processPreRequest
        ([fun n => .ok (some (n + 1))] ++
          (fun _ => .error "boom") :: [fun n => .ok (some (n + 100))]) (0 : Nat)
      = .error (.apiErrorWrap "boom")
    ∧ processPostResponse
        ([fun n => .ok (some (n + 1))] ++
          (fun _ => .error "boom") :: [fun n => .ok (some (n + 100))]) (0 : Nat)
      = .error (.apiErrorWrap "boom") :=
  ⟨(middleware_failure_aborts_pipeline [fun n => .ok (some (n + 1))]
      [fun n => .ok (some (n + 100))] (fun _ => .error "boom") 0 1 "boom").1 rfl rfl,
   (middleware_failure_aborts_pipeline [fun n => .ok (some (n + 1))]
      [fun n => .ok (some (n + 100))] (fun _ => .error "boom") 0 1 "boom").2 rfl rfl⟩

/-!
## Batch inference — `api.py` `batch_infer` / `async_batch_infer`
(and `sync_client.py` lines 272-291, `async_client.py` lines 223-236)

The sync version submits one thread-pool future per request and appends
results while iterating `as_completed(...)`, i.e. in *completion order*; a
completed execution is therefore described by a permutation of the input
indices.  The async version gathers one task per request with
`asyncio.gather(..., return_exceptions=True)`, which returns results in task
order, then zips them back with the request list.
-/

/-- One element of a batch result: either the success payload of an `infer`
call or the per-item error record `{"model": ..., "error": ...}`. -/
inductive BatchItem (π : Type) where
  | success (payload : π)
  | errorRec (model : String) (error : String)
deriving DecidableEq, Repr

/-- The per-item outcome of a batched `infer` call: `infer` is the (already
validated, transport-level) inference collaborator, raising by returning
`.error`. -/
def batchItemOf {δ π : Type} (infer : String → δ → Except String π)
    (r : String × δ) : BatchItem π :=
  match infer r.1 r.2 with
  | .ok p => .success p
  | .error e => .errorRec r.1 e

/-- `async_batch_infer`: build one task per `(model, data)` pair, gather the
results in task order, then replace each exception by its error record while
zipping with the request list. -/
def asyncBatchInfer {δ π : Type} (infer : String → δ → Except String π)
    (reqs : List (String × δ)) : List (BatchItem π) :=
  let results := reqs.map (fun r => infer r.1 r.2)
  (List.zip reqs results).map (fun p =>
    match p.2 with
    | .error e => .errorRec p.1.1 e
    | .ok v => .success v)

/-- `batch_infer`: one future per request, results appended in the order the
futures complete (`completionOrder`, a permutation of the input indices). -/
def batchInfer {δ π : Type} (infer : String → δ → Except String π)
    (reqs : List (String × δ)) (completionOrder : List (Fin reqs.length)) :
    List (BatchItem π) :=
  completionOrder.map (fun i => batchItemOf infer (reqs.get i))

/-- C3 counterexample: with two requests whose `infer` calls both succeed
with distinct payloads, the completion order that finishes the second
request first is a valid execution of `batch_infer`
(`[1, 0]` is a permutation of the index list), and its result list does not
match the input ordering.  The claim that sync `batch_infer` orders results
by input position is therefore false; only `async_batch_infer` does. -/
theorem batch_infer_not_input_ordered :
    ([⟨1, by decide⟩, ⟨0, by decide⟩] :
        List (Fin ([("m1", ()), ("m2", ())] : List (String × Unit)).length)).Perm
      (List.finRange ([("m1", ()), ("m2", ())] : List (String × Unit)).length)
    ∧ batchInfer (fun m _ => if m = "m1" then Except.ok (1 : Nat) else Except.ok 2)
        [("m1", ()), ("m2", ())] [⟨1, by decide⟩, ⟨0, by decide⟩]
      ≠ [("m1", ()), ("m2", ())].map
          (batchItemOf (fun m _ => if m = "m1" then Except.ok (1 : Nat) else Except.ok 2)) := by
  constructor
  · decide
  · decide

/-- C3 (amended): for every input list of `(model, data)` pairs,
`async_batch_infer` returns one result per input in input order, each failed
item replaced by its error record and each successful item by its payload;
sync `batch_infer` also isolates failures into per-item error records and
returns exactly one result per input, but ordered by completion — its result
list is a permutation of the input-ordered result list, of the same length
as the input. -/
theorem batch_infer_isolation_and_ordering {δ π : Type}
    (infer : String → δ → Except String π) (reqs : List (String × δ)) :
    (asyncBatchInfer infer reqs = reqs.map (batchItemOf infer))
    ∧ (∀ completionOrder : List (Fin reqs.length),
        completionOrder.Perm (List.finRange reqs.length) →
          (batchInfer infer reqs completionOrder).Perm (reqs.map (batchItemOf infer))
          ∧ (batchInfer infer reqs completionOrder).length = reqs.length) := by
  constructor
  · induction reqs with
    | nil => rfl
    | cons r rest ih =>
        simp only [asyncBatchInfer, List.map_cons, List.zip_cons_cons, List.map_cons] at ih ⊢
        cases hr : infer r.1 r.2 <;>
          simpa [batchItemOf, hr] using ih
  · intro order hperm
    have hmap : (batchInfer infer reqs order).Perm
        ((List.finRange reqs.length).map (fun i => batchItemOf infer (reqs.get i))) :=
      hperm.map _
    have hcomp : ((List.finRange reqs.length).map reqs.get).map (batchItemOf infer)
        = (List.finRange reqs.length).map (fun i => batchItemOf infer (reqs.get i)) := by
      rw [List.map_map]
      rfl
    have hall : (List.finRange reqs.length).map (fun i => batchItemOf infer (reqs.get i))
        = reqs.map (batchItemOf infer) := by
      rw [← hcomp, List.finRange_map_get]
    refine ⟨hall ▸ hmap, ?_⟩
    simp only [batchInfer, List.length_map]
    simpa using hperm.length_eq
/-- Witness for amended C3, mirroring the spec's example: three requests
whose second `infer` call fails; the async result is in input order with the
second item an error record, and the completion order finishing in reverse
still yields a permutation of those three per-item results. -/
theorem batch_infer_isolation_and_ordering_witness :
    (asyncBatchInfer
        (fun m _ => if m = "bad" then Except.error "boom" else Except.ok m)
        [("a", ()), ("bad", ()), ("c", ())]
      = [("a", ()), ("bad", ()), ("c", ())].map
          (batchItemOf (fun m _ => if m = "bad" then Except.error "boom" else Except.ok m)))
    ∧ ((batchInfer
          (fun m _ => if m = "bad" then Except.error "boom" else Except.ok m)
          [("a", ()), ("bad", ()), ("c", ())]
          [⟨2, by decide⟩, ⟨0, by decide⟩, ⟨1, by decide⟩]).Perm
        ([("a", ()), ("bad", ()), ("c", ())].map
          (batchItemOf (fun m _ => if m = "bad" then Except.error "boom" else Except.ok m)))
        ∧ (batchInfer
            (fun m _ => if m = "bad" then Except.error "boom" else Except.ok m)
            [("a", ()), ("bad", ()), ("c", ())]
            [⟨2, by decide⟩, ⟨0, by decide⟩, ⟨1, by decide⟩]).length = 3) :=
  ⟨(batch_infer_isolation_and_ordering
      (fun m _ => if m = "bad" then Except.error "boom" else Except.ok m)
      [("a", ()), ("bad", ()), ("c", ())]).1,
   (batch_infer_isolation_and_ordering
      (fun m _ => if m = "bad" then Except.error "boom" else Except.ok m)
      [("a", ()), ("bad", ()), ("c", ())]).2
     [⟨2, by decide⟩, ⟨0, by decide⟩, ⟨1, by decide⟩] (by decide)⟩

/-!
## Streaming decode — `stream_infer`
(`sync_client.py` lines 205-252, `api.py` lines 192-232,
`async_client.py` lines 161-203)

The loop over `response.iter_lines()` skips falsy (empty) lines, JSON-decodes
each remaining line, yields the decoded chunk, and on `json.JSONDecodeError`
logs and continues with the next line.  `decode` stands for the external
`json.loads` collaborator (`none` = `JSONDecodeError`).
-/

/-- The line loop of `stream_infer`, collecting the yielded chunks. -/
def streamChunks {χ : Type} (decode : String → Option χ) : List String → List χ
  | [] => []
  | line :: rest =>
      if line ≠ "" then
        match decode line with
        | some chunk => chunk :: streamChunks decode rest
        | none => streamChunks decode rest
      else
        streamChunks decode rest

/-- C8: viewing the streamed body as its sequence of lines, `stream_infer`
yields, in order, exactly the decoded values of the non-empty lines that
decode successfully; an undecodable line is skipped without terminating the
sequence.  In particular a body of a decodable line, a garbage line and
another decodable line yields exactly the two decoded chunks. -/
theorem stream_infer_decodes_and_skips {χ : Type} (decode : String → Option χ)
    (lines : List String) :
    (streamChunks decode lines = (lines.filter (fun l => l ≠ "")).filterMap decode)
    ∧ (∀ (la lg lb : String) (x y : χ), la ≠ "" → lg ≠ "" → lb ≠ "" →
        decode la = some x → decode lg = none → decode lb = some y →
        streamChunks decode [la, lg, lb] = [x, y]) := by
  constructor
  · induction lines with
    | nil => rfl
    | cons line rest ih =>
        by_cases hline : line = ""
        · simp [streamChunks, hline, ih]
        · cases hdec : decode line <;>
            simp [streamChunks, hline, hdec, ih, List.filter_cons, List.filterMap_cons]
  · intro la lg lb x y hla hlg hlb hx hg hy
    simp [streamChunks, hla, hlg, hlb, hx, hg, hy]

/-- Witness for C8 at the spec's example shape: lines `A`, `garbage`, `B`
under a decoder that decodes `A` and `B` but not `garbage`. -/
theorem stream_infer_decodes_and_skips_witness :
    (streamChunks (fun s => if s = "A" then some 1 else if s = "B" then some 2 else none)
        ["A", "garbage", "B"]
      = (["A", "garbage", "B"].filter (fun l => l ≠ "")).filterMap
          (fun s => if s = "A" then some 1 else if s = "B" then some 2 else none))
    ∧ streamChunks (fun s => if s = "A" then some 1 else if s = "B" then some 2 else none)
        ["A", "garbage", "B"] = [1, 2] :=
  ⟨(stream_infer_decodes_and_skips
      (fun s => if s = "A" then some 1 else if s = "B" then some 2 else none)
      ["A", "garbage", "B"]).1,
   (stream_infer_decodes_and_skips
      (fun s => if s = "A" then some 1 else if s = "B" then some 2 else none)
      ["A", "garbage", "B"]).2 "A" "garbage" "B" 1 2
     (by decide) (by decide) (by decide) (by decide) (by decide) (by decide)⟩

/-!
## URL building — `BaseClient._full_url` (`base_client.py` lines 24-25),
`FreeseekAPI._full_url` (`sync_client.py` lines 114-115, `api.py` 112-113)

Every constructor stores `self.base_url = base_url.rstrip("/")`, and
`_full_url` returns `f"{self.base_url}/{endpoint.lstrip('/')}"`.  Strings are
modelled as `List Char`.
-/

/-- Python `str.lstrip('/')` specialised to a single strip character. -/
def pyLstrip (c : Char) (s : List Char) : List Char :=
  s.dropWhile (· = c)

/-- Python `str.rstrip('/')` specialised to a single strip character. -/
def pyRstrip (c : Char) (s : List Char) : List Char :=
  (s.reverse.dropWhile (· = c)).reverse

/-- `_full_url` composed with the constructor's `base_url.rstrip("/")`. -/
def fullUrl (baseUrl endpoint : List Char) : List Char :=
  pyRstrip '/' baseUrl ++ '/' :: pyLstrip '/' endpoint

lemma head?_dropWhile_not {α : Type} (p : α → Bool) (l : List α) (a : α)
    (h : (l.dropWhile p).head? = some a) : p a = false := by
  induction l with
  | nil => simp [List.dropWhile] at h
  | cons x xs ih =>
      by_cases hx : p x
      · rw [List.dropWhile_cons_of_pos hx] at h
        exact ih h
      · rw [List.dropWhile_cons_of_neg hx] at h
        simp only [List.head?_cons, Option.some.injEq] at h
        rw [← h]
        exact Bool.eq_false_iff.mpr hx

/-- C9: for every constructor argument `base_url` and every `endpoint`, the
full request URL is `base_url` with all trailing `/` removed, then exactly
one `/`, then `endpoint` with all leading `/` removed: the stripped base
never ends in a slash, the stripped endpoint never starts with one, and
extra trailing slashes on the base or leading slashes on the endpoint do not
change the result. -/
theorem full_url_single_slash_join (b e : List Char) :
    fullUrl b e = pyRstrip '/' b ++ '/' :: pyLstrip '/' e
    ∧ (pyRstrip '/' b).getLast? ≠ some '/'
    ∧ (pyLstrip '/' e).head? ≠ some '/'
    ∧ fullUrl (b ++ ['/']) e = fullUrl b e
    ∧ fullUrl b ('/' :: e) = fullUrl b e := by
  refine ⟨rfl, ?_, ?_, ?_, ?_⟩
  · intro h
    rw [pyRstrip, List.getLast?_reverse] at h
    have := head?_dropWhile_not (· = '/') b.reverse '/' h
    simp at this
  · intro h
    have := head?_dropWhile_not (· = '/') e '/' h
    simp at this
  · simp [fullUrl, pyRstrip, List.dropWhile_cons]
  · simp [fullUrl, pyLstrip, List.dropWhile_cons]

/-!
## Rate-limit tracking — `utils.py` `RateLimitHandler.update_rate_limits`
(lines 66-73)

```
try:
    self.rate_limit_remaining = int(headers.get('X-RateLimit-Remaining', float('inf')))
    self.rate_limit_reset_time = int(headers.get('X-RateLimit-Reset', 0))
    logging.debug(...)
except ValueError:
    logging.warning("Failed to parse rate limit headers")
```

The two assignments run sequentially; `except` catches only `ValueError`
(`int` of a malformed string).  When the remaining header is absent,
`int(float('inf'))` raises `OverflowError`, which this handler does not
catch.  `remaining = none` models the initial `float('inf')`; `pyToInt`
models the external `int(str)` on the sign-and-digits shapes relevant here
(`none` = `ValueError`).
-/

def digitVal (c : Char) : Option Nat :=
  if '0' ≤ c ∧ c ≤ '9' then some (c.toNat - '0'.toNat) else none

def parseDigitsAux : List Char → Nat → Option Nat
  | [], acc => some acc
  | c :: rest, acc =>
      match digitVal c with
      | some d => parseDigitsAux rest (acc * 10 + d)
      | none => none

/-- All-digit parse of a non-empty character list. -/
def parseDigits : List Char → Option Nat
  | [] => none
  | cs => parseDigitsAux cs 0

/-- Model of Python `int(str)`: an optional minus sign followed by at least
one decimal digit; every other string raises `ValueError` (`none`). -/
def pyToInt (s : String) : Option Int :=
  match s.toList with
  | '-' :: rest => (parseDigits rest).map (fun n => -(n : Int))
  | cs => (parseDigits cs).map (fun n => (n : Int))

structure RateLimitState where
  remaining : Option Int
  resetTime : Int
deriving DecidableEq, Repr

/-- `RateLimitHandler.__init__`. -/
def RateLimitState.init : RateLimitState := { remaining := none, resetTime := 0 }

inductive RateLimitUpdateErr where
  | overflowError
deriving DecidableEq, Repr

/-- `update_rate_limits(headers)`, with the two header lookups given as the
`.get` results (`none` = header absent). -/
def updateRateLimits (st : RateLimitState) (remHdr resetHdr : Option String) :
    Except RateLimitUpdateErr RateLimitState :=
  match remHdr with
  | none => .error .overflowError
  | some s =>
      match pyToInt s with
      | none => .ok st
      | some r =>
          let st1 : RateLimitState := { st with remaining := some r }
          match resetHdr with
          | none => .ok { st1 with resetTime := 0 }
          | some s2 =>
              match pyToInt s2 with
              | none => .ok st1
              | some t => .ok { st1 with resetTime := t }

/-- C5 counterexample: from the stored state `{remaining := 7, reset := 50}`,
an absent remaining-quota header makes `update_rate_limits` raise
(`OverflowError` from `int(float('inf'))` is not caught by
`except ValueError`), and a malformed reset-time header leaves the state
partially updated (remaining overwritten, reset kept), not "entirely
unchanged". -/
theorem updateRateLimits_raises_and_partially_updates :
    updateRateLimits { remaining := some 7, resetTime := 50 } none (some "10")
      = .error .overflowError
    ∧ updateRateLimits { remaining := some 7, resetTime := 50 } (some "5") (some "xyz")
      = .ok { remaining := some 5, resetTime := 50 }
    ∧ ({ remaining := some 5, resetTime := 50 } : RateLimitState)
      ≠ { remaining := some 7, resetTime := 50 } := by
  refine ⟨rfl, ?_, by decide⟩
  have h5 : pyToInt "5" = some 5 := by decide
  have hxyz : pyToInt "xyz" = none := by decide
  simp [updateRateLimits, h5, hxyz]

/-- C5 (amended): if the remaining-quota header is present but malformed, the
whole stored state is left unchanged with a logged warning and no exception;
if it parses and the reset-time header is present but malformed, the
remaining value is updated while the reset time keeps its prior value, again
without raising; if both parse they are both stored; an absent reset-time
header resets the stored reset time to the default `0`; and an absent
remaining-quota header makes `update_rate_limits` raise `OverflowError`
(uncaught, from `int` of the infinite default). -/
theorem updateRateLimits_parse_behaviour (st : RateLimitState) (s s2 : String)
    (r t : Int) :
    (pyToInt s = none → ∀ (resetHdr : Option String),
        updateRateLimits st (some s) resetHdr = .ok st)
    ∧ (pyToInt s = some r → pyToInt s2 = none →
        updateRateLimits st (some s) (some s2) = .ok { st with remaining := some r })
    ∧ (pyToInt s = some r → pyToInt s2 = some t →
        updateRateLimits st (some s) (some s2)
          = .ok { remaining := some r, resetTime := t })
    ∧ (pyToInt s = some r →
        updateRateLimits st (some s) none = .ok { remaining := some r, resetTime := 0 })
    ∧ (∀ (resetHdr : Option String),
        updateRateLimits st none resetHdr = .error .overflowError) := by
  refine ⟨?_, ?_, ?_, ?_, fun _ => rfl⟩
  · intro h resetHdr; simp [updateRateLimits, h]
  · intro h h2; simp [updateRateLimits, h, h2]
  · intro h h2; simp [updateRateLimits, h, h2]
  · intro h; simp [updateRateLimits, h]

/-- Witness for amended C5 with headers `"abc"` (malformed), `"5"`, `"xyz"`
(malformed) and `"12"` against the stored state `{remaining := 7, reset := 50}`. -/
theorem updateRateLimits_parse_behaviour_witness :
    (updateRateLimits { remaining := some 7, resetTime := 50 } (some "abc") (some "12")
      = .ok { remaining := some 7, resetTime := 50 })
    ∧ (updateRateLimits { remaining := some 7, resetTime := 50 } (some "5") (some "xyz")
      = .ok { remaining := some 5, resetTime := 50 })
    ∧ (updateRateLimits { remaining := some 7, resetTime := 50 } (some "5") (some "12")
      = .ok { remaining := some 5, resetTime := 12 })
    ∧ (updateRateLimits { remaining := some 7, resetTime := 50 } (some "5") none
      = .ok { remaining := some 5, resetTime := 0 })
    ∧ (updateRateLimits { remaining := some 7, resetTime := 50 } none (some "12")
      = .error .overflowError) :=
  ⟨(updateRateLimits_parse_behaviour { remaining := some 7, resetTime := 50 }
      "abc" "12" 0 0).1 (by decide) (some "12"),
   (updateRateLimits_parse_behaviour { remaining := some 7, resetTime := 50 }
      "5" "xyz" 5 0).2.1 (by decide) (by decide),
   (updateRateLimits_parse_behaviour { remaining := some 7, resetTime := 50 }
      "5" "12" 5 12).2.2.1 (by decide) (by decide),
   (updateRateLimits_parse_behaviour { remaining := some 7, resetTime := 50 }
      "5" "12" 5 12).2.2.2.1 (by decide),
   (updateRateLimits_parse_behaviour { remaining := some 7, resetTime := 50 }
      "5" "12" 5 12).2.2.2.2 (some "12")⟩

/-!
## Token lifecycle — `auth.py` `AuthManager.token` (lines 19-28)

```
if (not self._token) or (time.time() > self._token_expiry - self.TOKEN_GRACE_PERIOD):
    self.refresh_token()
return self._token
```

Times are integers (`Int`, since `expiry - 300` may go negative).  The
refresh collaborator is injected as the `(access_token, expires_in)` pair a
successful `refresh_token()` would store; the returned counter is the number
of refreshes performed during the access.
-/

structure AuthState where
  token : Option String
  tokenExpiry : Int
deriving DecidableEq, Repr

def TOKEN_GRACE_PERIOD : Int := 300

/-- Python truthiness of `self._token` (`None` and `""` are falsy). -/
def tokenFalsy : Option String → Bool
  | none => true
  | some s => decide (s = "")

/-- The `token` property: refresh when no token is held or `now` is past
`expiry - grace`, then return the stored token.  `refresh_token` stores
`_token = access_token` and `_token_expiry = now + expires_in`. -/
def tokenAccess (st : AuthState) (now : Int) (accessToken : String)
    (expiresIn : Int) : String × AuthState × Nat :=
  if tokenFalsy st.token ∨ now > st.tokenExpiry - TOKEN_GRACE_PERIOD then
    let st1 : AuthState := { token := some accessToken, tokenExpiry := now + expiresIn }
    (accessToken, st1, 1)
  else
    (st.token.getD "", st, 0)

/-- C6: accessing the token property refreshes exactly once when no token is
held or the current time is within the 300-second grace period of the stored
expiry (`now > expiry - 300`, the source's strict comparison), and performs
zero refreshes — returning the stored token and leaving the state
unchanged — when a token is held and its expiry is at least 1000 seconds
away. -/
theorem token_refresh_exactly_when_needed (st : AuthState) (now : Int)
    (accessToken s : String) (expiresIn : Int) :
    (tokenFalsy st.token = true →
        (tokenAccess st now accessToken expiresIn).2.2 = 1)
    ∧ (now > st.tokenExpiry - 300 →
        (tokenAccess st now accessToken expiresIn).2.2 = 1)
    ∧ (st.token = some s → s ≠ "" → st.tokenExpiry - now ≥ 1000 →
        tokenAccess st now accessToken expiresIn = (s, st, 0)) := by
  refine ⟨?_, ?_, ?_⟩
  · intro h
    simp [tokenAccess, h]
  · intro h
    simp [tokenAccess, TOKEN_GRACE_PERIOD, h]
  · intro hs hne hfar
    have hnot : ¬ now > st.tokenExpiry - TOKEN_GRACE_PERIOD := by
      simp only [TOKEN_GRACE_PERIOD]
      omega
    simp [tokenAccess, tokenFalsy, hs, hne, hnot]

/-- Witness for C6: a missing token at time 0, a token expiring in 100
seconds at time 0 (inside the grace window), and a token expiring 1500
seconds after `now = 500`. -/
theorem token_refresh_exactly_when_needed_witness :
    ((tokenAccess { token := none, tokenExpiry := 0 } 0 "fresh" 3600).2.2 = 1)
    ∧ ((tokenAccess { token := some "tok", tokenExpiry := 100 } 0 "fresh" 3600).2.2 = 1)
    ∧ (tokenAccess { token := some "tok", tokenExpiry := 2000 } 500 "fresh" 3600
        = ("tok", { token := some "tok", tokenExpiry := 2000 }, 0)) :=
  ⟨(token_refresh_exactly_when_needed { token := none, tokenExpiry := 0 } 0
      "fresh" "" 3600).1 (by decide),
   (token_refresh_exactly_when_needed { token := some "tok", tokenExpiry := 100 } 0
      "fresh" "" 3600).2.1 (by decide),
   (token_refresh_exactly_when_needed { token := some "tok", tokenExpiry := 2000 } 500
      "fresh" "tok" 3600).2.2 rfl (by decide) (by decide)⟩

/-!
## Adaptive optimizer — `optimizer.py` `AdaptiveQueryOptimizer`

Request data dicts and the cache are modelled as association lists with
dict-update semantics (`assocSet` overwrites in place or appends).  The
history is the `deque(maxlen=50)`.  `analyze_history` and `classify_query`
only log — they do not affect state or result — so `processRequest` computes
the classification but discards it like the source does.
-/

/-- `d[k]` / `k in d` for a Python dict modelled as an association list. -/
def assocGet {β : Type} : List (String × β) → String → Option β
  | [], _ => none
  | (k, v) :: rest, key => if k = key then some v else assocGet rest key

/-- `d[k] = v` on a dict: overwrite the existing binding or append. -/
def assocSet {β : Type} : List (String × β) → String → β → List (String × β)
  | [], key, v => [(key, v)]
  | (k, w) :: rest, key, v =>
      if k = key then (k, v) :: rest else (k, w) :: assocSet rest key v

structure OptimizerState where
  priority : String
  history : List String
  cache : List (String × (String × List (String × String)))
  rateLimitRemaining : Nat
deriving DecidableEq, Repr

/-- `select_model(query)`. -/
def selectModel (st : OptimizerState) (query : String) : String :=
  if st.rateLimitRemaining < 10 then "deepseek_light"
  else if query.length < 50 then "deepseek_light"
  else if query.length < 200 then "deepseek_v3"
  else "deepseek_pro"

/-- `optimize_prompt(prompt)`. -/
def optimizePrompt (st : OptimizerState) (prompt : String) : String :=
  if st.priority = "speed" then (prompt.toList.take 250).asString
  else if st.priority = "accuracy" then prompt ++ " Provide detailed and accurate results."
  else prompt

/-- `re.search(kw, prompt)` on a literal keyword: contiguous substring test. -/
def containsSub (needle : List Char) : List Char → Bool
  | [] => needle.isEmpty
  | c :: rest => needle.isPrefixOf (c :: rest) || containsSub needle rest

/-- `classify_query(prompt)`: case-insensitive keyword search. -/
def classifyQuery (prompt : String) : String :=
  let low := prompt.toLower.toList
  if containsSub "code".toList low ∨ containsSub "script".toList low
      ∨ containsSub "function".toList low then "coding"
  else if containsSub "write".toList low ∨ containsSub "story".toList low
      ∨ containsSub "poem".toList low then "creative"
  else "general"

/-- `deque(maxlen=50).append`. -/
def dequeAppend (h : List String) (x : String) : List String :=
  let h1 := h ++ [x]
  if h1.length > 50 then h1.drop (h1.length - 50) else h1

/-- `process_request(model, data)`: return the cached `(model, payload)` pair
when the prompt is a cache key; otherwise append to history, compute the
optimised model and prompt, and cache the result.  (The `model` argument is
ignored by the source when computing the result.) -/
def processRequest (st : OptimizerState) (model : String)
    (data : List (String × String)) :
    (String × List (String × String)) × OptimizerState :=
  let prompt := (assocGet data "prompt").getD ""
  match assocGet st.cache prompt with
  | some r => (r, st)
  | none =>
      let st1 := { st with history := dequeAppend st.history prompt }
      let result := (selectModel st1 prompt,
                     assocSet data "prompt" (optimizePrompt st1 prompt))
      let _queryType := classifyQuery prompt
      let st2 := { st1 with cache := assocSet st1.cache prompt result }
      (result, st2)

/-- C10: when the prompt extracted from `data` is already a key of the
optimizer cache, `process_request` returns the stored `(model, payload)`
result and the entire optimizer state — history, cache, priority and
rate-limit counter — is returned unchanged. -/
theorem optimizer_cache_hit_is_pure (st : OptimizerState) (model : String)
    (data : List (String × String)) (r : String × List (String × String))
    (h : assocGet st.cache ((assocGet data "prompt").getD "") = some r) :
    processRequest st model data = (r, st) := by
  simp [processRequest, h]

/-- Witness for C10: a cache holding the prompt `"hi"`. -/
theorem optimizer_cache_hit_is_pure_witness :
    processRequest
        { priority := "balanced", history := ["hi"],
          cache := [("hi", ("deepseek_light", [("prompt", "hi")]))],
          rateLimitRemaining := 1000 }
        "deepseek_v3" [("prompt", "hi")]
      = (("deepseek_light", [("prompt", "hi")]),
         { priority := "balanced", history := ["hi"],
           cache := [("hi", ("deepseek_light", [("prompt", "hi")]))],
           rateLimitRemaining := 1000 }) :=
  optimizer_cache_hit_is_pure
    { priority := "balanced", history := ["hi"],
      cache := [("hi", ("deepseek_light", [("prompt", "hi")]))],
      rateLimitRemaining := 1000 }
    "deepseek_v3" [("prompt", "hi")] ("deepseek_light", [("prompt", "hi")]) (by decide)

end Freeseek
